import Mathlib

/-!
NexusAI shell: authorization gate of `src/site/layout.js`

A shallow embedding of the security-relevant part of the `Layout` component:
the profile bootstrap (`fetchProfile`), the render decision of `Layout`
(mandatory-2FA interstitial, step-up interstitial, application content), the
step-up handler (`handleSessionVerification`) and the 2FA reminder.

React state is a record (`Component`), `sessionStorage` is an association
list, the profile store is a list of records in creation order, and every
external call whose outcome the code branches on is a parameter (`Env`,
`SecurityService`).
-/

namespace NexusAI

/-! ## Data model -/

/-- A `NexusProfile` record as the component reads it. Boolean fields hold the
JavaScript truthiness of the attribute; `plan` is optional because the code
reads it as `profile?.plan?.toUpperCase()`. -/
structure Profile where
  id : Nat
  created_by : String
  role : String
  plan : Option String
  credits : Int
  total_usage : Int
  two_fa_enabled : Bool
  two_fa_secret : String
  is_blocked : Bool
  security_lockdown : Bool
deriving DecidableEq, Repr

/-- The caller as returned by `base44.auth.me()`; only `email` is read. -/
structure User where
  email : String
deriving DecidableEq, Repr

/-- The browser `sessionStorage`: key/value pairs, most recent first. -/
abbrev SessionStorage := List (String × String)

/-- The call `sessionStorage.getItem(key)`: `none` stands for `null`. -/
def getItem (s : SessionStorage) (key : String) : Option String :=
  (s.find? (fun kv => kv.1 == key)).map (fun kv => kv.2)

/-- The call `sessionStorage.setItem(key, value)`. -/
def setItem (s : SessionStorage) (key value : String) : SessionStorage :=
  (key, value) :: s.filter (fun kv => !(kv.1 == key))

/-- JavaScript truthiness of a `getItem` result: `null` and the empty string
are falsy, every other string is truthy. -/
def truthy : Option String → Bool
  | none => false
  | some v => !(v == "")

/-- The React state of `Layout` (lines 66-70). `isSidebarOpen` is layout
plumbing that no decision reads and is left out. -/
structure Component where
  profile : Option Profile
  showSecurityPopup : Bool
  isSessionVerified : Bool
  verificationCode : String
deriving DecidableEq, Repr

/-- The `useState` initial values of lines 66-70: no profile, reminder hidden,
`isSessionVerified` true ("Default true until profile check"). -/
def Component.initial : Component :=
  { profile := none, showSecurityPopup := false, isSessionVerified := true,
    verificationCode := "" }

/-- One `register` audit event received by `SecurityService.logSecurityEvent`:
the new profile, the event type and the `role` detail. -/
structure AuditEvent where
  profile : Profile
  eventType : String
  role : String
deriving DecidableEq, Repr

/-- Everything a handler of the component can read or write: its React state,
the session storage, the profile store (records in creation order) and the
audit events delivered so far. -/
structure World where
  comp : Component
  sessionStorage : SessionStorage
  store : List Profile
  audit : List AuditEvent
deriving DecidableEq, Repr

/-- A freshly mounted component over a given session storage and store. -/
def mount (ss : SessionStorage) (store : List Profile) : World :=
  { comp := Component.initial, sessionStorage := ss, store := store, audit := [] }

/-! ## Profile store -/

/-- Modelled from the spec: the Profile Store query
`base44.entities.NexusProfile.filter` on the key `created_by`
(`findByOwner(identityKey) -> Profile[]`): the records owned by the identity,
in creation order. -/
def NexusProfile.filterCreatedBy (store : List Profile) (email : String) : List Profile :=
  store.filter (fun p => p.created_by == email)

/-- Modelled from the spec: the Profile Store query
`base44.entities.NexusProfile.filter` on the key `role`
(`findByRole(role) -> Profile[]`). -/
def NexusProfile.filterRole (store : List Profile) (role : String) : List Profile :=
  store.filter (fun p => p.role == role)

/-- The object literal passed to `NexusProfile.create` at lines 110-115. -/
structure CreateFields where
  plan : String
  credits : Int
  total_usage : Int
  role : String
deriving DecidableEq, Repr

/-- Modelled from the spec: the Profile Store call `create(fields) -> Profile`.
The store assigns the identifier, records the caller as `created_by`, keeps the
four fields it is given and leaves every attribute it is not given absent
(falsy when read). The new record is appended to the store. -/
def NexusProfile.create (store : List Profile) (caller : String) (f : CreateFields) :
    Profile × List Profile :=
  let p : Profile :=
    { id := store.length, created_by := caller, role := f.role, plan := some f.plan,
      credits := f.credits, total_usage := f.total_usage, two_fa_enabled := false,
      two_fa_secret := "", is_blocked := false, security_lockdown := false }
  (p, store ++ [p])

/-! ## Render decision of `Layout` -/

/-- A sidebar entry (the icon is presentation and is left out). -/
structure NavItem where
  label : String
  path : String
deriving DecidableEq, Repr

/-- The literal `navItems` array of lines 161-173. -/
def baseNavItems : List NavItem :=
  [ { label := "DASHBOARD", path := "/" },
    { label := "VIRAL SIMULATOR", path := "/ViralSimulator" },
    { label := "PSYCH PROFILE", path := "/PsychProfile" },
    { label := "CONFLICT GEN", path := "/ConflictGen" },
    { label := "DEAD TEXT", path := "/DeadText" },
    { label := "PERSONAS", path := "/Personas" },
    { label := "BANCO DE PADRÕES", path := "/PatternBank" },
    { label := "TESTE A/B", path := "/ABTester" },
    { label := "HISTÓRICO", path := "/History" },
    { label := "UPGRADE / PLANOS", path := "/Plans" },
    { label := "SEGURANÇA", path := "/Security" } ]

/-- The array `navItems` after the two conditional pushes of lines 175-181. -/
def navItems (profile : Option Profile) : List NavItem :=
  let role := profile.map (fun p => p.role)
  let items := baseNavItems
  let items :=
    if role = some "admin" ∨ role = some "owner" then
      items ++ [{ label := "ADMIN", path := "/Admin" }]
    else items
  let items :=
    if role = some "owner" then items ++ [{ label := "OWNER", path := "/Owner" }]
    else items
  items

/-- The text of the plan badge of line 305: the literal `FREE`, or the result
of `toUpperCase()` on the plan string `plan`. The case mapping itself is left
to the browser; only its argument is recorded. -/
inductive PlanBadge where
  | FREE
  | upperCaseOf (plan : String)
deriving DecidableEq, Repr

/-- The plan badge `profile?.plan?.toUpperCase() || 'FREE'` of line 305. The
right operand is taken when `plan` is absent or when the upper-cased string is
falsy, that is empty, which `toUpperCase()` returns for the empty string
only. -/
def planLabel (profile : Option Profile) : PlanBadge :=
  match profile.bind (fun p => p.plan) with
  | none => .FREE
  | some plan => if plan == "" then .FREE else .upperCaseOf plan

/-- The credit counter `profile?.credits || 0` of line 308. -/
def creditsShown (profile : Option Profile) : Int :=
  match profile with
  | none => 0
  | some p => if p.credits == 0 then 0 else p.credits

/-- What `Layout` returns: one of the two full-screen interstitials or the
application shell around `children`. -/
inductive View where
  | enforce2FASetup (role : String)
  | stepUp (verificationCode : String)
  | shell (nav : List NavItem) (plan : PlanBadge) (credits : Int) (showSecurityPopup : Bool)
deriving DecidableEq, Repr

/-- The gate states of the render decision. -/
inductive Gate where
  | ENFORCE_2FA_SETUP
  | AWAIT_STEP_UP
  | AUTHORIZED
deriving DecidableEq, Repr

/-- The gate state a view stands for. -/
def View.gate : View → Gate
  | .enforce2FASetup _ => .ENFORCE_2FA_SETUP
  | .stepUp _ => .AWAIT_STEP_UP
  | .shell _ _ _ _ => .AUTHORIZED

/-- The condition of line 206:
`profile && (profile.role === 'owner' || profile.role === 'admin') && !profile.two_fa_enabled`. -/
def mustSetup2FA (profile : Option Profile) : Bool :=
  match profile with
  | none => false
  | some p => (p.role == "owner" || p.role == "admin") && !p.two_fa_enabled

/-- The value of `profile?.two_fa_enabled` as a condition. -/
def twoFaEnabled (profile : Option Profile) : Bool :=
  match profile with
  | none => false
  | some p => p.two_fa_enabled

/-- The render of `Layout` (lines 205-386) for the current state and
`location.pathname`. The setup interstitial names `profile.role.toUpperCase()`;
the role is `owner` or `admin` there, on which the ASCII mapping is exact. -/
def Layout (c : Component) (pathname : String) : View :=
  if mustSetup2FA c.profile && !(pathname == "/Security") then
    .enforce2FASetup ((c.profile.map (fun p => p.role.toUpper)).getD "")
  else if !c.isSessionVerified && twoFaEnabled c.profile then
    .stepUp c.verificationCode
  else
    .shell (navItems c.profile) (planLabel c.profile) (creditsShown c.profile)
      c.showSecurityPopup

/-! ## Profile load: `fetchProfile` (lines 88-150) -/

/-- The outcomes of the external calls of one profile load that the code
branches on. `me` is the value of `base44.auth.me()`; the other fields say
whether the named call rejects. The identity call and the query by owner key
are taken to return. -/
structure Env where
  me : Option User
  checkLoginSecurityThrows : Bool
  ownersFilterThrows : Bool
  createThrows : Bool
  logSecurityEventThrows : Bool
deriving DecidableEq, Repr

/-- How control leaves lines 89-131. -/
inductive Status where
  | fallsThrough
  | returned
  | rejected
deriving DecidableEq, Repr

/-- The state after lines 89-131: the world as written so far, the local
`currentProfile` and how control leaves the block. While the calls that follow
`setProfile` (lines 100-101, 121-125) are pending, `world` is the state
`Layout` renders. -/
structure Resolution where
  world : World
  currentProfile : Option Profile
  status : Status
deriving DecidableEq, Repr

/-- Lines 107-108 of `fetchProfile`: the owner query and `isFirstUser`, on the
store as it is when the query is answered. -/
def fetchProfile.isFirstUser (store : List Profile) : Bool :=
  let owners := NexusProfile.filterRole store "owner"
  owners.length == 0

/-- Lines 110-126 of `fetchProfile`: with `isFirstUser` as the owner query left
it, create the record on the store as it is when `create` runs, hold it and
log the registration (a failure of the log is swallowed). A failing `create`
is caught at line 128 and leaves no profile. -/
def fetchProfile.register (env : Env) (user : User) (isFirstUser : Bool) (w : World) :
    Resolution :=
  if env.createThrows then
    { world := w, currentProfile := none, status := .fallsThrough }
  else
    let created := NexusProfile.create w.store user.email
      { plan := if isFirstUser then "elite" else "free",
        credits := if isFirstUser then 1000 else 20,
        total_usage := 0,
        role := if isFirstUser then "owner" else "user" }
    let newProfile := created.1
    let w1 := { w with comp := { w.comp with profile := some newProfile },
                       store := created.2 }
    let w2 :=
      if env.logSecurityEventThrows then w1
      else
        { w1 with audit := w1.audit ++
            [{ profile := newProfile, eventType := "register",
               role := if isFirstUser then "OWNER (First User)" else "User" }] }
    { world := w2, currentProfile := some newProfile, status := .fallsThrough }

/-- Lines 89-131 of `fetchProfile`, run without another load in between:
resolve the caller, look its profile up, create one when there is none. -/
def fetchProfile.resolve (env : Env) (w : World) : Resolution :=
  match env.me with
  | none => { world := w, currentProfile := none, status := .returned }
  | some user =>
    match NexusProfile.filterCreatedBy w.store user.email with
    | currentProfile :: _ =>
      let w1 := { w with comp := { w.comp with profile := some currentProfile } }
      if env.checkLoginSecurityThrows then
        { world := w1, currentProfile := some currentProfile, status := .rejected }
      else
        { world := w1, currentProfile := some currentProfile, status := .fallsThrough }
    | [] =>
      if env.ownersFilterThrows then
        { world := w, currentProfile := none, status := .fallsThrough }
      else
        fetchProfile.register env user (fetchProfile.isFirstUser w.store) w

/-- Lines 133-149 of `fetchProfile`: the reminder check, the (empty) lockdown
check and the session-verification check. -/
def fetchProfile.checks (currentProfile : Option Profile) (w : World) : World :=
  let w1 :=
    match currentProfile with
    | some p =>
      if !p.two_fa_enabled && !truthy (getItem w.sessionStorage "security_popup_dismissed") then
        { w with comp := { w.comp with showSecurityPopup := true } }
      else w
    | none => w
  if twoFaEnabled currentProfile then
    let verified := getItem w1.sessionStorage "nexus_session_verified"
    if !truthy verified then
      { w1 with comp := { w1.comp with isSessionVerified := false } }
    else w1
  else w1

/-- The result of one call of `fetchProfile`: the final world and whether the
returned promise rejected. -/
structure LoadResult where
  world : World
  rejected : Bool
deriving DecidableEq, Repr

/-- One run of `fetchProfile` (lines 88-150), from the call at line 151 to the
settlement of its promise. -/
def fetchProfile (env : Env) (w : World) : LoadResult :=
  let r := fetchProfile.resolve env w
  match r.status with
  | .fallsThrough => { world := fetchProfile.checks r.currentProfile r.world, rejected := false }
  | .returned => { world := r.world, rejected := false }
  | .rejected => { world := r.world, rejected := true }

/-- Profile loads run one after the other, one per navigation (line 152). -/
def loads : List Env → World → World
  | [], w => w
  | env :: rest, w => loads rest (fetchProfile env w).world

/-! ## Step-up verification: `handleSessionVerification` (lines 183-203) -/

/-- The value of `s.length` in JavaScript: the number of UTF-16 code units. -/
def jsLength (s : String) : Nat :=
  (s.data.map (fun c => if c.toNat < 65536 then 1 else 2)).sum

/-- The two checks of `SecurityService` the handler calls; their results are
parameters. -/
structure SecurityService where
  verify2FA : String → String → Bool
  verifyBackupCode : Nat → String → Bool

/-- A call made to `SecurityService` by the handler. -/
inductive Call where
  | verify2FA (code secret : String)
  | verifyBackupCode (profileId : Nat) (code : String)
deriving DecidableEq, Repr

/-- The result of one form submission: the world afterwards, the final value
of `isValid`, the `SecurityService` calls made in order, and whether the
"Código inválido" alert was raised. -/
structure Verification where
  world : World
  isValid : Bool
  calls : List Call
  alerted : Bool
deriving DecidableEq, Repr

/-- The handler `handleSessionVerification` (lines 183-203). With no profile
held, `profile.two_fa_secret` raises and nothing is returned. -/
def handleSessionVerification (svc : SecurityService) (w : World) : Option Verification :=
  match w.comp.profile with
  | none => none
  | some profile =>
    let verificationCode := w.comp.verificationCode
    let totp := svc.verify2FA verificationCode profile.two_fa_secret
    let calls := [Call.verify2FA verificationCode profile.two_fa_secret]
    let tryBackup := !totp && jsLength verificationCode == 8
    let isValid := if tryBackup then svc.verifyBackupCode profile.id verificationCode else totp
    let calls :=
      if tryBackup then calls ++ [Call.verifyBackupCode profile.id verificationCode] else calls
    if isValid then
      some { world :=
               { w with sessionStorage := setItem w.sessionStorage "nexus_session_verified" "true",
                        comp := { w.comp with isSessionVerified := true } },
             isValid := true, calls := calls, alerted := false }
    else
      some { world := w, isValid := false, calls := calls, alerted := true }

/-- The input handler `onChange` of line 245: `setVerificationCode`. -/
def setVerificationCode (code : String) (w : World) : World :=
  { w with comp := { w.comp with verificationCode := code } }

/-! ## Reminder dismissal (line 362) -/

/-- The close button of the reminder: hide it and record the dismissal in the
session storage. -/
def dismissSecurityPopup (w : World) : World :=
  { w with comp := { w.comp with showSecurityPopup := false },
           sessionStorage := setItem w.sessionStorage "security_popup_dismissed" "true" }

/-! ## Reachable states -/

/-- The states of the component between two handlers: the mount state over any
session storage and store, closed under profile loads whose promise resolves,
code submissions, edits of the code field, reminder dismissals and changes
made to the store from outside the component. -/
inductive AtRest : World → Prop
  | mount (ss : SessionStorage) (store : List Profile) : AtRest (mount ss store)
  | load (env : Env) (w : World) :
      AtRest w → (fetchProfile env w).rejected = false → AtRest (fetchProfile env w).world
  | submit (svc : SecurityService) (w : World) (r : Verification) :
      AtRest w → handleSessionVerification svc w = some r → AtRest r.world
  | typeCode (code : String) (w : World) : AtRest w → AtRest (setVerificationCode code w)
  | dismiss (w : World) : AtRest w → AtRest (dismissSecurityPopup w)
  | storeChange (store : List Profile) (w : World) :
      AtRest w → AtRest { w with store := store }

/-- The states `Layout` can render: the states at rest, and the state a load
has written by the time it suspends on the calls that follow `setProfile`
(lines 100-101 and 121-125). -/
inductive Reachable : World → Prop
  | rest (w : World) : AtRest w → Reachable w
  | pending (env : Env) (w : World) : AtRest w → Reachable (fetchProfile.resolve env w).world

/-! ## Sample data -/

/-- A sample owner account that has not enrolled in 2FA. -/
def ownerNo2FA : Profile :=
  { id := 0, created_by := "root@nexus.io", role := "owner", plan := some "elite",
    credits := 1000, total_usage := 0, two_fa_enabled := false, two_fa_secret := "",
    is_blocked := false, security_lockdown := false }

/-- A sample admin account with 2FA enrolled. -/
def adminWith2FA : Profile :=
  { id := 1, created_by := "ops@nexus.io", role := "admin", plan := some "elite",
    credits := 5, total_usage := 0, two_fa_enabled := true, two_fa_secret := "JBSWY3DP",
    is_blocked := false, security_lockdown := false }

/-- A sample plain user account without 2FA. -/
def userNo2FA : Profile :=
  { id := 2, created_by := "ana@nexus.io", role := "user", plan := some "free",
    credits := 20, total_usage := 0, two_fa_enabled := false, two_fa_secret := "",
    is_blocked := false, security_lockdown := false }

/-- A component that holds `adminWith2FA` and waits for the step-up code
`code`. -/
def awaitingStepUp (code : String) : World :=
  { comp := { profile := some adminWith2FA, showSecurityPopup := false,
              isSessionVerified := false, verificationCode := code },
    sessionStorage := [], store := [adminWith2FA], audit := [] }

/-- A security service that accepts the TOTP code `123456` and the backup code
`ABCDEFGH` and nothing else. -/
def sampleService : SecurityService :=
  { verify2FA := fun code _ => code == "123456",
    verifyBackupCode := fun _ code => code == "ABCDEFGH" }

/-- A load for caller `email` in which no external call fails. -/
def Env.ok (email : String) : Env :=
  { me := some { email := email }, checkLoginSecurityThrows := false,
    ownersFilterThrows := false, createThrows := false, logSecurityEventThrows := false }

/-- A load for caller `email` in which the login check (lines 100-101) throws
and every other call succeeds. -/
def Env.loginCheckFails (email : String) : Env :=
  { me := some { email := email }, checkLoginSecurityThrows := true,
    ownersFilterThrows := false, createThrows := false, logSecurityEventThrows := false }

/-- A load in which the identity provider returns no caller. -/
def Env.anonymous : Env :=
  { me := none, checkLoginSecurityThrows := false, ownersFilterThrows := false,
    createThrows := false, logSecurityEventThrows := false }

/-- A load for caller `email` whose `create` call (line 110) fails while
every other call succeeds. -/
def Env.createFails (email : String) : Env :=
  { me := some { email := email }, checkLoginSecurityThrows := false,
    ownersFilterThrows := false, createThrows := true, logSecurityEventThrows := false }

/-- Two registrations that overlap on the shared store `store`: caller A and
caller B, each in a freshly mounted component, both get the answer of the owner
query (line 107) before either reaches `create` (line 110); the two `create`
calls then run, A first. The result is the store afterwards. -/
def overlappingRegistrations (envA envB : Env) (userA userB : User) (store : List Profile) :
    List Profile :=
  let isFirstUserA := fetchProfile.isFirstUser store
  let isFirstUserB := fetchProfile.isFirstUser store
  let a := fetchProfile.register envA userA isFirstUserA (mount [] store)
  let b := fetchProfile.register envB userB isFirstUserB (mount [] a.world.store)
  b.world.store

/-- A component in a verified session that holds `adminWith2FA`, as left by an
earlier load. -/
def holdingAdmin : World :=
  { comp := { profile := some adminWith2FA, showSecurityPopup := false,
              isSessionVerified := true, verificationCode := "" },
    sessionStorage := [("nexus_session_verified", "true")], store := [adminWith2FA],
    audit := [] }

/-! ## Helper lemmas -/

/-- Reading a key just written returns the written value. -/
theorem getItem_setItem_same (s : SessionStorage) (k v : String) :
    getItem (setItem s k v) k = some v := by
  simp [getItem, setItem]

/-- Writing a key leaves every other key as it was. -/
theorem getItem_setItem_other (s : SessionStorage) (k k2 v : String) (h : k2 ≠ k) :
    getItem (setItem s k v) k2 = getItem s k2 := by
  have hk : (k == k2) = false := by
    simpa using fun e => h e.symm
  have hfun : (fun kv : String × String =>
      decide ((!(kv.1 == k)) = true ∧ (kv.1 == k2) = true)) =
      (fun kv : String × String => kv.1 == k2) := by
    funext kv
    by_cases hb : kv.1 = k2
    · simp [hb, h]
    · simp [hb]
  simp only [getItem, setItem, List.find?_cons, hk, List.find?_filter, hfun]

/-- A held 2FA profile with `isSessionVerified` false renders the step-up
interstitial on every route. -/
theorem layout_gate_stepUp (c : Component) (pathname : String) (p : Profile)
    (hp : c.profile = some p) (h2 : p.two_fa_enabled = true)
    (hv : c.isSessionVerified = false) :
    Layout c pathname = .stepUp c.verificationCode := by
  simp [Layout, mustSetup2FA, twoFaEnabled, hp, h2, hv]

/-- A held 2FA profile with `isSessionVerified` true renders the application
content on every route. -/
theorem layout_gate_verified (c : Component) (pathname : String) (p : Profile)
    (hp : c.profile = some p) (h2 : p.two_fa_enabled = true)
    (hv : c.isSessionVerified = true) :
    (Layout c pathname).gate = .AUTHORIZED := by
  simp [Layout, mustSetup2FA, twoFaEnabled, hp, h2, hv, View.gate]

/-! ## Claims -/

/-- C1: for a held profile with role admin or owner and 2FA disabled, whatever
the session-verification flag and the route, `Layout` renders the
mandatory-2FA interstitial when the route is not `/Security`, and the
application content when the route is exactly `/Security`. -/
theorem gate_privileged_without_2fa (c : Component) (p : Profile) (pathname : String)
    (hp : c.profile = some p) (hrole : p.role = "admin" ∨ p.role = "owner")
    (h2 : p.two_fa_enabled = false) :
    (pathname ≠ "/Security" →
      Layout c pathname = .enforce2FASetup p.role.toUpper ∧
      (Layout c pathname).gate = .ENFORCE_2FA_SETUP) ∧
    (pathname = "/Security" → (Layout c pathname).gate = .AUTHORIZED) := by
  have hm : mustSetup2FA c.profile = true := by
    rcases hrole with h | h <;> simp [mustSetup2FA, hp, h, h2]
  have ht : twoFaEnabled c.profile = false := by simp [twoFaEnabled, hp, h2]
  constructor
  · intro hne
    simp [Layout, hm, hne, View.gate]
    simp [hp]
  · intro he
    simp [Layout, hm, he, ht, View.gate]

/-- Witness of C1: a 2FA-less owner on `/Admin`. -/
theorem gate_privileged_without_2fa_witness :
    (Layout { profile := some ownerNo2FA, showSecurityPopup := false,
              isSessionVerified := true, verificationCode := "" } "/Admin").gate
      = .ENFORCE_2FA_SETUP ∧
    (Layout { profile := some ownerNo2FA, showSecurityPopup := false,
              isSessionVerified := true, verificationCode := "" } "/Security").gate
      = .AUTHORIZED :=
  ⟨((gate_privileged_without_2fa _ ownerNo2FA "/Admin" rfl (Or.inr rfl) rfl).1
      (by decide)).2,
   (gate_privileged_without_2fa _ ownerNo2FA "/Security" rfl (Or.inr rfl) rfl).2 rfl⟩

/-- C3: for a held profile with 2FA enabled and the step-up interstitial on
screen, a submission returns a result; when the code check succeeds the flag
`nexus_session_verified` is set, `isSessionVerified` is true, the profile and
the store are untouched and every route renders the application content; when
it fails nothing changes and every route keeps the step-up interstitial. The
check succeeds exactly when the TOTP check does or the code has 8 units and the
backup check does. -/
theorem session_verification_marks_session (svc : SecurityService) (w : World) (p : Profile)
    (hp : w.comp.profile = some p) (h2 : p.two_fa_enabled = true)
    (hv : w.comp.isSessionVerified = false) :
    (∀ pathname, (Layout w.comp pathname).gate = .AWAIT_STEP_UP) ∧
    ∃ r, handleSessionVerification svc w = some r ∧
      r.isValid = (svc.verify2FA w.comp.verificationCode p.two_fa_secret ||
        (jsLength w.comp.verificationCode == 8 &&
          svc.verifyBackupCode p.id w.comp.verificationCode)) ∧
      (r.isValid = true →
        getItem r.world.sessionStorage "nexus_session_verified" = some "true" ∧
        truthy (getItem r.world.sessionStorage "nexus_session_verified") = true ∧
        r.world.comp.isSessionVerified = true ∧
        r.world.comp.profile = some p ∧
        r.world.store = w.store ∧
        ∀ pathname, (Layout r.world.comp pathname).gate = .AUTHORIZED) ∧
      (r.isValid = false →
        r.world = w ∧
        ∀ pathname, (Layout r.world.comp pathname).gate = .AWAIT_STEP_UP) := by
  have hgate : ∀ pathname, (Layout w.comp pathname).gate = .AWAIT_STEP_UP := by
    intro pathname
    rw [layout_gate_stepUp w.comp pathname p hp h2 hv]
    rfl
  refine ⟨hgate, ?_⟩
  cases ht : svc.verify2FA w.comp.verificationCode p.two_fa_secret <;>
    cases hl : (jsLength w.comp.verificationCode == 8) <;>
    cases hb : svc.verifyBackupCode p.id w.comp.verificationCode <;>
    simp [handleSessionVerification, hp, ht, hl, hb, getItem_setItem_same, truthy, hgate] <;>
    exact fun pathname => layout_gate_verified _ pathname p rfl h2 rfl

/-- Witness of C3: `adminWith2FA` submits the accepted TOTP code `123456`; the
session is marked verified and every route opens. -/
theorem session_verification_marks_session_witness :
    (awaitingStepUp "123456").comp.profile = some adminWith2FA ∧
    adminWith2FA.two_fa_enabled = true ∧
    (awaitingStepUp "123456").comp.isSessionVerified = false ∧
    ∃ r, handleSessionVerification sampleService (awaitingStepUp "123456") = some r ∧
      getItem r.world.sessionStorage "nexus_session_verified" = some "true" ∧
      truthy (getItem r.world.sessionStorage "nexus_session_verified") = true ∧
      r.world.comp.isSessionVerified = true ∧
      r.world.comp.profile = some adminWith2FA ∧
      r.world.store = (awaitingStepUp "123456").store ∧
      ∀ pathname, (Layout r.world.comp pathname).gate = .AUTHORIZED :=
  ⟨rfl, rfl, rfl,
   let ⟨r, h, hval, hs, _⟩ :=
     (session_verification_marks_session sampleService (awaitingStepUp "123456")
       adminWith2FA rfl rfl rfl).2
   ⟨r, h, hs (hval.trans (by decide))⟩⟩

/-- C4: with a profile held, a submission returns a result; for a code whose
length is not 8 the result is valid if and only if the TOTP check
`verify2FA(code, profile.two_fa_secret)` succeeds, and for every code a
successful TOTP check makes the result valid. -/
theorem verification_follows_totp (svc : SecurityService) (w : World) (p : Profile)
    (hp : w.comp.profile = some p) :
    ∃ r, handleSessionVerification svc w = some r ∧
      (jsLength w.comp.verificationCode ≠ 8 →
        (r.isValid = true ↔
          svc.verify2FA w.comp.verificationCode p.two_fa_secret = true)) ∧
      (svc.verify2FA w.comp.verificationCode p.two_fa_secret = true → r.isValid = true) := by
  cases ht : svc.verify2FA w.comp.verificationCode p.two_fa_secret <;>
    cases hl : (jsLength w.comp.verificationCode == 8) <;>
    cases hb : svc.verifyBackupCode p.id w.comp.verificationCode <;>
    simp_all [handleSessionVerification]

/-- Witness of C4: the 6-character code `123456`. -/
theorem verification_follows_totp_witness :
    (awaitingStepUp "123456").comp.profile = some adminWith2FA ∧
    jsLength (awaitingStepUp "123456").comp.verificationCode ≠ 8 ∧
    ∃ r, handleSessionVerification sampleService (awaitingStepUp "123456") = some r ∧
      (r.isValid = true ↔ sampleService.verify2FA "123456" adminWith2FA.two_fa_secret = true) :=
  ⟨rfl, by decide,
   let ⟨r, h, hiff, _⟩ :=
     verification_follows_totp sampleService (awaitingStepUp "123456") adminWith2FA rfl
   ⟨r, h, hiff (by decide)⟩⟩

/-- C5: with a profile held, the handler calls
`verifyBackupCode(profile.id, code)` if and only if the TOTP check failed and
the code has exactly 8 units; when it is called the result equals the backup
check; the calls made are the TOTP check followed by at most that one backup
check; a code of any other length, or one that passed TOTP, triggers no backup
check. -/
theorem backup_code_fallthrough (svc : SecurityService) (w : World) (p : Profile)
    (hp : w.comp.profile = some p) :
    ∃ r, handleSessionVerification svc w = some r ∧
      ((∃ i c, Call.verifyBackupCode i c ∈ r.calls) ↔
        (svc.verify2FA w.comp.verificationCode p.two_fa_secret = false ∧
          jsLength w.comp.verificationCode = 8)) ∧
      ((∃ i c, Call.verifyBackupCode i c ∈ r.calls) →
        r.calls = [Call.verify2FA w.comp.verificationCode p.two_fa_secret,
                   Call.verifyBackupCode p.id w.comp.verificationCode] ∧
        r.isValid = svc.verifyBackupCode p.id w.comp.verificationCode) ∧
      ((¬ ∃ i c, Call.verifyBackupCode i c ∈ r.calls) →
        r.calls = [Call.verify2FA w.comp.verificationCode p.two_fa_secret] ∧
        r.isValid = svc.verify2FA w.comp.verificationCode p.two_fa_secret) ∧
      (jsLength w.comp.verificationCode ≠ 8 →
        ¬ ∃ i c, Call.verifyBackupCode i c ∈ r.calls) ∧
      (svc.verify2FA w.comp.verificationCode p.two_fa_secret = true →
        ¬ ∃ i c, Call.verifyBackupCode i c ∈ r.calls) := by
  cases ht : svc.verify2FA w.comp.verificationCode p.two_fa_secret <;>
    cases hl : (jsLength w.comp.verificationCode == 8) <;>
    cases hb : svc.verifyBackupCode p.id w.comp.verificationCode <;>
    simp only [handleSessionVerification, hp, ht, hl, hb] <;>
    refine ⟨_, rfl, ?_⟩ <;>
    simp at hl <;>
    simp [hl]

/-- Witness of C5: the 8-character code `ABCDEFGH` fails TOTP and reaches the
backup check. -/
theorem backup_code_fallthrough_witness :
    (awaitingStepUp "ABCDEFGH").comp.profile = some adminWith2FA ∧
    ∃ r, handleSessionVerification sampleService (awaitingStepUp "ABCDEFGH") = some r ∧
      ((∃ i c, Call.verifyBackupCode i c ∈ r.calls) ↔
        (sampleService.verify2FA "ABCDEFGH" adminWith2FA.two_fa_secret = false ∧
          jsLength "ABCDEFGH" = 8)) :=
  ⟨rfl,
   let ⟨r, h, hiff, _⟩ :=
     backup_code_fallthrough sampleService (awaitingStepUp "ABCDEFGH") adminWith2FA rfl
   ⟨r, h, hiff⟩⟩

/-! ### C2: the step-up interstitial -/

/-- What lines 89-131 leave alone: the session storage, `isSessionVerified`
and the reminder flag; with no `currentProfile` nothing is written, otherwise
the held profile is `currentProfile`. -/
theorem resolve_frame (env : Env) (w : World) :
    (fetchProfile.resolve env w).world.sessionStorage = w.sessionStorage ∧
    (fetchProfile.resolve env w).world.comp.isSessionVerified = w.comp.isSessionVerified ∧
    (fetchProfile.resolve env w).world.comp.showSecurityPopup = w.comp.showSecurityPopup ∧
    ((fetchProfile.resolve env w).currentProfile = none →
      (fetchProfile.resolve env w).world = w) ∧
    (∀ p, (fetchProfile.resolve env w).currentProfile = some p →
      (fetchProfile.resolve env w).world.comp.profile = some p) := by
  unfold fetchProfile.resolve
  cases env.me with
  | none => simp
  | some user =>
    simp only
    cases NexusProfile.filterCreatedBy w.store user.email with
    | cons cp rest => by_cases h : env.checkLoginSecurityThrows = true <;> simp [h]
    | nil =>
      by_cases h1 : env.ownersFilterThrows = true <;>
        by_cases h2 : env.createThrows = true <;>
        by_cases h3 : env.logSecurityEventThrows = true <;>
        simp [fetchProfile.register, h1, h2, h3]

/-- What lines 133-149 leave alone (session storage, store, held profile), and
when they lower `isSessionVerified`. -/
theorem checks_frame (cp : Option Profile) (w : World) :
    (fetchProfile.checks cp w).sessionStorage = w.sessionStorage ∧
    (fetchProfile.checks cp w).store = w.store ∧
    (fetchProfile.checks cp w).comp.profile = w.comp.profile ∧
    (w.comp.isSessionVerified = false →
      (fetchProfile.checks cp w).comp.isSessionVerified = false) ∧
    (∀ p, cp = some p → p.two_fa_enabled = true →
      truthy (getItem w.sessionStorage "nexus_session_verified") = false →
      (fetchProfile.checks cp w).comp.isSessionVerified = false) := by
  unfold fetchProfile.checks
  cases cp with
  | none => simp [twoFaEnabled]
  | some q =>
    cases h2 : q.two_fa_enabled <;>
      cases hd : truthy (getItem w.sessionStorage "security_popup_dismissed") <;>
      cases hv : truthy (getItem w.sessionStorage "nexus_session_verified") <;>
      simp [twoFaEnabled, h2, hd, hv]

/-- The effect of a load whose promise resolves on the fields the gate
reads: the session storage is kept, a false `isSessionVerified` stays false,
and either the held profile and `isSessionVerified` are kept or the held
profile is the resolved one and the session check has run on it. -/
theorem fetchProfile_gate_fields (env : Env) (w : World)
    (hrej : (fetchProfile env w).rejected = false) :
    (fetchProfile env w).world.sessionStorage = w.sessionStorage ∧
    (w.comp.isSessionVerified = false →
      (fetchProfile env w).world.comp.isSessionVerified = false) ∧
    (((fetchProfile env w).world.comp.profile = w.comp.profile ∧
        (fetchProfile env w).world.comp.isSessionVerified = w.comp.isSessionVerified) ∨
      ∃ q, (fetchProfile env w).world.comp.profile = some q ∧
        (q.two_fa_enabled = true →
          truthy (getItem w.sessionStorage "nexus_session_verified") = false →
          (fetchProfile env w).world.comp.isSessionVerified = false)) := by
  obtain ⟨hss, hver, _, hnone, hsome⟩ := resolve_frame env w
  obtain ⟨css, _, cprof, ckeep, cset⟩ :=
    checks_frame (fetchProfile.resolve env w).currentProfile (fetchProfile.resolve env w).world
  unfold fetchProfile at hrej ⊢
  cases hst : (fetchProfile.resolve env w).status with
  | rejected => simp [hst] at hrej
  | returned =>
    simp only [hst]
    exact ⟨hss, fun h => hver.trans h, Or.inl ⟨by
      revert hst
      unfold fetchProfile.resolve
      cases env.me with
      | none => simp
      | some user =>
        simp only
        cases NexusProfile.filterCreatedBy w.store user.email with
        | cons cp rest => by_cases h : env.checkLoginSecurityThrows = true <;> simp [h]
        | nil =>
          by_cases h1 : env.ownersFilterThrows = true <;>
            by_cases h2 : env.createThrows = true <;>
              simp [fetchProfile.register, h1, h2], hver⟩⟩
  | fallsThrough =>
    simp only [hst]
    refine ⟨css.trans hss, fun h => ckeep (hver.trans h), ?_⟩
    cases hcp : (fetchProfile.resolve env w).currentProfile with
    | none =>
      left
      have hw := hnone hcp
      refine ⟨?_, ?_⟩
      · rw [← hcp, cprof, hw]
      · rw [hw]
        simp [fetchProfile.checks, twoFaEnabled]
    | some q =>
      right
      refine ⟨q, ?_, ?_⟩
      · rw [← hcp, cprof]
        exact (hsome q hcp).trans hcp.symm
      · intro h2 hf
        rw [← hcp]
        exact cset q hcp h2 (by rw [hss]; exact hf)

/-- At rest, a held 2FA profile with a falsy session flag has
`isSessionVerified = false`. -/
theorem atRest_unverified (w : World) (h : AtRest w) :
    ∀ p, w.comp.profile = some p → p.two_fa_enabled = true →
      truthy (getItem w.sessionStorage "nexus_session_verified") = false →
      w.comp.isSessionVerified = false := by
  induction h with
  | mount ss store => intro p hp; simp [mount, Component.initial] at hp
  | load env w _ hrej ih =>
    intro p hp h2 hf
    obtain ⟨hss, _, hcases⟩ := fetchProfile_gate_fields env w hrej
    rw [hss] at hf
    rcases hcases with ⟨hprof, hver⟩ | ⟨q, hq, hset⟩
    · rw [hver]
      exact ih p (hprof ▸ hp) h2 hf
    · rw [hq] at hp
      cases hp
      exact hset h2 hf
  | submit svc w r _ hr ih =>
    intro p hp h2 hf
    cases hprof : w.comp.profile with
    | none => simp [handleSessionVerification, hprof] at hr
    | some q =>
      cases ht : svc.verify2FA w.comp.verificationCode q.two_fa_secret <;>
        cases hl : (jsLength w.comp.verificationCode == 8) <;>
        cases hb : svc.verifyBackupCode q.id w.comp.verificationCode <;>
        simp only [handleSessionVerification, hprof, ht, hl, hb] at hr <;>
        simp at hr <;>
        subst hr <;>
        first
          | exact ih p hp h2 hf
          | (simp [getItem_setItem_same, truthy] at hf)
  | typeCode code w _ ih => intro p hp h2 hf; exact ih p hp h2 hf
  | dismiss w _ ih =>
    intro p hp h2 hf
    have hk := getItem_setItem_other w.sessionStorage "security_popup_dismissed"
      "nexus_session_verified" "true" (by decide)
    simp only [dismissSecurityPopup] at hp hf ⊢
    rw [hk] at hf
    exact ih p hp h2 hf
  | storeChange store w _ ih => intro p hp h2 hf; exact ih p hp h2 hf

/-- C2 (amended): in every state at rest (mount, then any sequence of profile
loads whose promise resolves, code submissions, edits of the code field,
reminder dismissals and outside changes of the store) in which the held profile
has 2FA enabled and the session flag `nexus_session_verified` is unset or
empty, `Layout` renders the step-up interstitial on every route, whatever the
role. -/
theorem step_up_at_rest (w : World) (h : AtRest w) (p : Profile) (pathname : String)
    (hp : w.comp.profile = some p) (h2 : p.two_fa_enabled = true)
    (hf : truthy (getItem w.sessionStorage "nexus_session_verified") = false) :
    Layout w.comp pathname = .stepUp w.comp.verificationCode ∧
    (Layout w.comp pathname).gate = .AWAIT_STEP_UP := by
  have hv := atRest_unverified w h p hp h2 hf
  rw [layout_gate_stepUp w.comp pathname p hp h2 hv]
  exact ⟨rfl, rfl⟩

/-- Witness of C2 (amended): the first load of `adminWith2FA` in a fresh
session, run to its end, leaves the step-up interstitial on `/Admin`. -/
theorem step_up_at_rest_witness :
    AtRest (fetchProfile (Env.ok "ops@nexus.io") (mount [] [adminWith2FA])).world ∧
    (Layout (fetchProfile (Env.ok "ops@nexus.io") (mount [] [adminWith2FA])).world.comp
      "/Admin").gate = .AWAIT_STEP_UP :=
  ⟨AtRest.load _ _ (AtRest.mount _ _) rfl,
   (step_up_at_rest (fetchProfile (Env.ok "ops@nexus.io") (mount [] [adminWith2FA])).world
      (AtRest.load _ _ (AtRest.mount _ _) rfl) adminWith2FA "/Admin" rfl rfl rfl).2⟩

/-- C2 (counterexample): on the first load of `adminWith2FA` in a fresh
session, with every external call succeeding, the state written by
`setProfile` while the login check is pending holds a 2FA profile, the session
flag is unset, and `Layout` renders the application content, not the step-up
interstitial. -/
theorem step_up_skipped_while_load_pending :
    Reachable (fetchProfile.resolve (Env.ok "ops@nexus.io") (mount [] [adminWith2FA])).world ∧
    (fetchProfile.resolve (Env.ok "ops@nexus.io") (mount [] [adminWith2FA])).status
      = .fallsThrough ∧
    (fetchProfile.resolve (Env.ok "ops@nexus.io")
      (mount [] [adminWith2FA])).world.comp.profile = some adminWith2FA ∧
    adminWith2FA.two_fa_enabled = true ∧
    getItem (fetchProfile.resolve (Env.ok "ops@nexus.io")
      (mount [] [adminWith2FA])).world.sessionStorage "nexus_session_verified" = none ∧
    (Layout (fetchProfile.resolve (Env.ok "ops@nexus.io")
      (mount [] [adminWith2FA])).world.comp "/").gate = .AUTHORIZED ∧
    (Layout (fetchProfile.resolve (Env.ok "ops@nexus.io")
      (mount [] [adminWith2FA])).world.comp "/").gate ≠ .AWAIT_STEP_UP :=
  ⟨Reachable.pending _ _ (AtRest.mount _ _), by decide, by decide, rfl, by decide,
   by decide, by decide⟩

/-! ### C6 and C7: profile creation -/

/-- A load that finds a profile of the caller leaves the store alone and holds
the first match. -/
theorem fetchProfile_existing (env : Env) (w : World) (user : User) (p : Profile)
    (rest : List Profile) (hme : env.me = some user)
    (hfound : NexusProfile.filterCreatedBy w.store user.email = p :: rest) :
    (fetchProfile env w).world.store = w.store ∧
    (fetchProfile env w).world.comp.profile = some p := by
  obtain ⟨_, cstore, cprof, _, _⟩ :=
    checks_frame (some p) { w with comp := { w.comp with profile := some p } }
  by_cases h : env.checkLoginSecurityThrows = true
  · simp [fetchProfile, fetchProfile.resolve, hme, hfound, h]
  · simp only [fetchProfile, fetchProfile.resolve, hme, hfound, h]
    exact ⟨cstore, cprof⟩

/-- A load that finds no profile of the caller, with the store answering,
appends one record built by the first-owner rule and holds it. -/
theorem fetchProfile_creates (env : Env) (w : World) (user : User)
    (hme : env.me = some user)
    (hnone : NexusProfile.filterCreatedBy w.store user.email = [])
    (hq : env.ownersFilterThrows = false) (hc : env.createThrows = false) :
    ∃ p, (fetchProfile.resolve env w).currentProfile = some p ∧
      (fetchProfile env w).rejected = false ∧
      (fetchProfile env w).world.store = w.store ++ [p] ∧
      (fetchProfile env w).world.comp.profile = some p ∧
      p.created_by = user.email ∧ p.total_usage = 0 ∧
      (NexusProfile.filterRole w.store "owner" = [] →
        p.role = "owner" ∧ p.plan = some "elite" ∧ p.credits = 1000) ∧
      (NexusProfile.filterRole w.store "owner" ≠ [] →
        p.role = "user" ∧ p.plan = some "free" ∧ p.credits = 20) := by
  cases hown : NexusProfile.filterRole w.store "owner" with
  | nil =>
    cases hl : env.logSecurityEventThrows <;>
    · refine ⟨(NexusProfile.create w.store user.email
          { plan := "elite", credits := 1000, total_usage := 0, role := "owner" }).1, ?_⟩
      obtain ⟨_, cstore, cprof, _, _⟩ := checks_frame
        (fetchProfile.resolve env w).currentProfile (fetchProfile.resolve env w).world
      simp only [fetchProfile]
      have hr : (fetchProfile.resolve env w).status = .fallsThrough := by
        simp [fetchProfile.resolve, fetchProfile.register, hme, hnone, hq, hc]
      simp only [hr, cstore, cprof]
      simp [fetchProfile.resolve, fetchProfile.register, fetchProfile.isFirstUser, hme, hnone,
        hq, hc, hown, hl, NexusProfile.create]
  | cons o os =>
    cases hl : env.logSecurityEventThrows <;>
    · refine ⟨(NexusProfile.create w.store user.email
          { plan := "free", credits := 20, total_usage := 0, role := "user" }).1, ?_⟩
      obtain ⟨_, cstore, cprof, _, _⟩ := checks_frame
        (fetchProfile.resolve env w).currentProfile (fetchProfile.resolve env w).world
      simp only [fetchProfile]
      have hr : (fetchProfile.resolve env w).status = .fallsThrough := by
        simp [fetchProfile.resolve, fetchProfile.register, hme, hnone, hq, hc]
      simp only [hr, cstore, cprof]
      simp [fetchProfile.resolve, fetchProfile.register, fetchProfile.isFirstUser, hme, hnone,
        hq, hc, hown, hl, NexusProfile.create]

/-- A load whose caller is missing, or whose creation attempt meets a store
error, changes nothing and resolves. -/
theorem fetchProfile_no_profile (env : Env) (w : World)
    (h : env.me = none ∨
      ∃ user, env.me = some user ∧
        NexusProfile.filterCreatedBy w.store user.email = [] ∧
        (env.ownersFilterThrows = true ∨ env.createThrows = true)) :
    fetchProfile env w = { world := w, rejected := false } := by
  rcases h with hme | ⟨user, hme, hnone, herr⟩
  · simp [fetchProfile, fetchProfile.resolve, hme]
  · by_cases h1 : env.ownersFilterThrows = true
    · simp [fetchProfile, fetchProfile.resolve, hme, hnone, h1, fetchProfile.checks,
        twoFaEnabled]
    · have h2 : env.createThrows = true := herr.resolve_left h1
      simp [fetchProfile, fetchProfile.resolve, fetchProfile.register, hme, hnone, h1, h2,
        fetchProfile.checks,
        twoFaEnabled]

/-- The store after a load: unchanged, or one record appended whose role follows
the first-owner rule. -/
theorem fetchProfile_store_cases (env : Env) (w : World) :
    (fetchProfile env w).world.store = w.store ∨
    ∃ p, (fetchProfile env w).world.store = w.store ++ [p] ∧
      (NexusProfile.filterRole w.store "owner" = [] → p.role = "owner") ∧
      (NexusProfile.filterRole w.store "owner" ≠ [] → p.role = "user") := by
  cases hme : env.me with
  | none => left; rw [fetchProfile_no_profile env w (Or.inl hme)]
  | some user =>
    cases hf : NexusProfile.filterCreatedBy w.store user.email with
    | cons q rest => left; exact (fetchProfile_existing env w user q rest hme hf).1
    | nil =>
      by_cases h1 : env.ownersFilterThrows = true
      · left; rw [fetchProfile_no_profile env w (Or.inr ⟨user, hme, hf, Or.inl h1⟩)]
      · by_cases h2 : env.createThrows = true
        · left; rw [fetchProfile_no_profile env w (Or.inr ⟨user, hme, hf, Or.inr h2⟩)]
        · right
          obtain ⟨p, _, _, hs, _, _, _, ho, hu⟩ :=
            fetchProfile_creates env w user hme hf (by simpa using h1) (by simpa using h2)
          exact ⟨p, hs, fun h => (ho h).1, fun h => (hu h).1⟩

/-- A store grown from nothing by the first-owner rule: empty, or an owner
followed by users only. -/
theorem loads_owner_first (envs : List Env) (w : World)
    (h : w.store = [] ∨ ∃ first later, w.store = first :: later ∧ first.role = "owner" ∧
      ∀ q ∈ later, q.role = "user") :
    (loads envs w).store = [] ∨ ∃ first later, (loads envs w).store = first :: later ∧
      first.role = "owner" ∧ ∀ q ∈ later, q.role = "user" := by
  induction envs generalizing w with
  | nil => exact h
  | cons env rest ih =>
    apply ih
    rcases fetchProfile_store_cases env w with hs | ⟨p, hs, ho, hu⟩
    · rw [hs]; exact h
    · right
      rcases h with h0 | ⟨first, later, hw, hfirst, hlater⟩
      · refine ⟨p, [], by rw [hs, h0]; rfl, ho (by simp [NexusProfile.filterRole, h0]), ?_⟩
        intro q hq; cases hq
      · refine ⟨first, later ++ [p], by rw [hs, hw]; rfl, hfirst, ?_⟩
        intro q hq
        rcases List.mem_append.mp hq with hq | hq
        · exact hlater q hq
        · have : q = p := by simpa using hq
          rw [this]
          apply hu
          simp [NexusProfile.filterRole, hw, hfirst]

/-- The owner query answers "first user" exactly when the store it reads
holds no owner-role record. -/
theorem isFirstUser_iff (store : List Profile) :
    fetchProfile.isFirstUser store = true ↔ NexusProfile.filterRole store "owner" = [] := by
  simp [fetchProfile.isFirstUser, List.length_eq_zero]

/-- A `create` that does not fail appends one record whose role, plan and
credits follow `isFirstUser`. -/
theorem register_creates (env : Env) (user : User) (isFirstUser : Bool) (w : World)
    (hc : env.createThrows = false) :
    ∃ p, (fetchProfile.register env user isFirstUser w).currentProfile = some p ∧
      (fetchProfile.register env user isFirstUser w).world.store = w.store ++ [p] ∧
      p.created_by = user.email ∧ p.total_usage = 0 ∧
      (isFirstUser = true → p.role = "owner" ∧ p.plan = some "elite" ∧ p.credits = 1000) ∧
      (isFirstUser = false → p.role = "user" ∧ p.plan = some "free" ∧ p.credits = 20) := by
  cases isFirstUser <;> cases hl : env.logSecurityEventThrows <;>
    simp [fetchProfile.register, hc, hl, NexusProfile.create]

/-- C6 (amended): for a caller with no profile and a store that answers, the
load creates a record with role owner, plan elite and 1000 credits if and only
if the store holds no owner-role record when the owner query runs, and
otherwise with role user, plan free and 20 credits; `total_usage` is 0 either
way. This holds both for a load run on its own and for a `create` that runs on
a later store than the one the owner query read. When the loads run one after
the other from an empty store, the created record is an owner exactly when
nothing was created before it, and the store afterwards is one owner followed
by users only. -/
theorem first_owner_bootstrap (env : Env) (w : World) (user : User)
    (hme : env.me = some user)
    (hnone : NexusProfile.filterCreatedBy w.store user.email = [])
    (hq : env.ownersFilterThrows = false) (hc : env.createThrows = false) :
    (∃ p, (fetchProfile.resolve env w).currentProfile = some p ∧
      (fetchProfile env w).world.store = w.store ++ [p] ∧
      (fetchProfile env w).world.comp.profile = some p ∧
      p.total_usage = 0 ∧
      ((p.role = "owner" ∧ p.plan = some "elite" ∧ p.credits = 1000) ↔
        NexusProfile.filterRole w.store "owner" = []) ∧
      (NexusProfile.filterRole w.store "owner" ≠ [] →
        p.role = "user" ∧ p.plan = some "free" ∧ p.credits = 20) ∧
      (∀ envs w0, w0.store = [] → w = loads envs w0 →
        (p.role = "owner" ↔ w.store = []) ∧
        (w.store ≠ [] → p.role = "user") ∧
        ∃ first later, (fetchProfile env w).world.store = first :: later ∧
          first.role = "owner" ∧ ∀ q ∈ later, q.role = "user")) ∧
    (∀ checked : List Profile,
      ∃ p, (fetchProfile.register env user
              (fetchProfile.isFirstUser checked) w).currentProfile = some p ∧
        (fetchProfile.register env user
              (fetchProfile.isFirstUser checked) w).world.store = w.store ++ [p] ∧
        p.total_usage = 0 ∧
        ((p.role = "owner" ∧ p.plan = some "elite" ∧ p.credits = 1000) ↔
          NexusProfile.filterRole checked "owner" = []) ∧
        (NexusProfile.filterRole checked "owner" ≠ [] →
          p.role = "user" ∧ p.plan = some "free" ∧ p.credits = 20)) := by
  constructor
  · obtain ⟨p, hcur, _, hs, hprof, _, hu0, ho, hu⟩ :=
      fetchProfile_creates env w user hme hnone hq hc
    have hiff : (p.role = "owner" ∧ p.plan = some "elite" ∧ p.credits = 1000) ↔
        NexusProfile.filterRole w.store "owner" = [] := by
      refine ⟨fun hrole => ?_, ho⟩
      by_contra hne
      have := (hu hne).1
      rw [hrole.1] at this
      exact absurd this (by decide)
    refine ⟨p, hcur, hs, hprof, hu0, hiff, hu, ?_⟩
    intro envs w0 h0 hw
    have hshape := loads_owner_first envs w0 (Or.inl h0)
    rw [← hw] at hshape
    rcases hshape with hempty | ⟨first, later, hfl, hfirst, hlater⟩
    · have hno : NexusProfile.filterRole w.store "owner" = [] := by
        simp [NexusProfile.filterRole, hempty]
      refine ⟨⟨fun _ => hempty, fun _ => (ho hno).1⟩, fun hne => absurd hempty hne, ?_⟩
      refine ⟨p, [], by rw [hs, hempty]; rfl, (ho hno).1, ?_⟩
      intro q hq0
      cases hq0
    · have hsome : NexusProfile.filterRole w.store "owner" ≠ [] := by
        simp [NexusProfile.filterRole, hfl, hfirst]
      have hpu := (hu hsome).1
      refine ⟨⟨fun hrole => ?_, fun hem => ?_⟩, fun _ => hpu, ?_⟩
      · rw [hpu] at hrole
        exact absurd hrole (by decide)
      · rw [hfl] at hem
        cases hem
      · refine ⟨first, later ++ [p], by rw [hs, hfl]; rfl, hfirst, ?_⟩
        intro q hq0
        rcases List.mem_append.mp hq0 with hq1 | hq1
        · exact hlater q hq1
        · have hqp : q = p := by simpa using hq1
          rw [hqp]
          exact hpu
  · intro checked
    obtain ⟨p, hcur, hs, _, hu0, ho, hu⟩ :=
      register_creates env user (fetchProfile.isFirstUser checked) w hc
    have hfalse : NexusProfile.filterRole checked "owner" ≠ [] →
        fetchProfile.isFirstUser checked = false := by
      intro hne
      cases hf : fetchProfile.isFirstUser checked with
      | false => rfl
      | true => exact absurd ((isFirstUser_iff checked).mp hf) hne
    refine ⟨p, hcur, hs, hu0, ⟨fun hrole => ?_, fun hno => ho ((isFirstUser_iff checked).mpr hno)⟩,
      fun hne => hu (hfalse hne)⟩
    by_contra hne
    have := (hu (hfalse hne)).1
    rw [hrole.1] at this
    exact absurd this (by decide)

/-- Witness of C6 (amended): on an empty store `root@nexus.io` registers, then
`ana@nexus.io`, then `bo@nexus.io`; the third record is a user and the store is
one owner followed by two users. -/
theorem first_owner_bootstrap_witness :
    (loads [Env.ok "root@nexus.io", Env.ok "ana@nexus.io", Env.ok "bo@nexus.io"]
      (mount [] [])).store.map (fun p => (p.created_by, p.role, p.plan, p.credits))
      = [("root@nexus.io", "owner", some "elite", 1000),
         ("ana@nexus.io", "user", some "free", 20),
         ("bo@nexus.io", "user", some "free", 20)] ∧
    ∃ p, (fetchProfile (Env.ok "bo@nexus.io")
        (loads [Env.ok "root@nexus.io", Env.ok "ana@nexus.io"] (mount [] []))).world.store
        = (loads [Env.ok "root@nexus.io", Env.ok "ana@nexus.io"] (mount [] [])).store ++ [p] ∧
      p.role = "user" ∧
      ∃ first later, (fetchProfile (Env.ok "bo@nexus.io")
          (loads [Env.ok "root@nexus.io", Env.ok "ana@nexus.io"] (mount [] []))).world.store
          = first :: later ∧
        first.role = "owner" ∧ ∀ q ∈ later, q.role = "user" :=
  ⟨by decide,
   let ⟨p, _, hs, _, _, _, _, hseq⟩ :=
     (first_owner_bootstrap (Env.ok "bo@nexus.io")
       (loads [Env.ok "root@nexus.io", Env.ok "ana@nexus.io"] (mount [] []))
       { email := "bo@nexus.io" } rfl (by decide) rfl rfl).1
   let h := hseq [Env.ok "root@nexus.io", Env.ok "ana@nexus.io"] (mount [] []) rfl rfl
   ⟨p, hs, h.2.1 (by decide), h.2.2⟩⟩

/-- C6 (counterexample): on an empty store, `root@nexus.io` and `ana@nexus.io`
register at the same time: both owner queries are answered before either
`create` runs, and both records are created as owners, so the record created
second is not a user. Run one after the other, the same two loads give an owner
and a user. -/
theorem overlapping_registrations_both_owner :
    (overlappingRegistrations (Env.ok "root@nexus.io") (Env.ok "ana@nexus.io")
        { email := "root@nexus.io" } { email := "ana@nexus.io" } []).map
        (fun p => (p.created_by, p.role, p.plan, p.credits))
      = [("root@nexus.io", "owner", some "elite", 1000),
         ("ana@nexus.io", "owner", some "elite", 1000)] ∧
    (loads [Env.ok "root@nexus.io", Env.ok "ana@nexus.io"] (mount [] [])).store.map
        (fun p => (p.created_by, p.role, p.plan, p.credits))
      = [("root@nexus.io", "owner", some "elite", 1000),
         ("ana@nexus.io", "user", some "free", 20)] := by
  decide

/-- Once the caller has a profile, any further sequence of its loads keeps the
store and, when at least one load runs, holds the first match. -/
theorem loads_existing (email : String) (envs : List Env) (w : World) (p : Profile)
    (rest : List Profile) (hme : ∀ e ∈ envs, e.me = some { email := email })
    (hfound : NexusProfile.filterCreatedBy w.store email = p :: rest) :
    (loads envs w).store = w.store ∧
    (envs ≠ [] → (loads envs w).comp.profile = some p) := by
  induction envs generalizing w with
  | nil => exact ⟨rfl, fun h => absurd rfl h⟩
  | cons env tl ih =>
    obtain ⟨hs, hprof⟩ := fetchProfile_existing env w { email := email } p rest
      (hme env (List.mem_cons_self _ _)) hfound
    have hfound2 :
        NexusProfile.filterCreatedBy (fetchProfile env w).world.store email = p :: rest := by
      rw [hs]; exact hfound
    obtain ⟨ihs, ihp⟩ := ih (fetchProfile env w).world
      (fun e he => hme e (List.mem_cons_of_mem _ he)) hfound2
    refine ⟨by simp only [loads]; rw [ihs, hs], fun _ => ?_⟩
    simp only [loads]
    cases tl with
    | nil => exact hprof
    | cons e2 tl2 => exact ihp (by simp)

/-- While the caller has no profile, loads that all meet a store error change
nothing. -/
theorem loads_all_fail (email : String) (envs : List Env) (w : World)
    (hme : ∀ e ∈ envs, e.me = some { email := email })
    (hnone : NexusProfile.filterCreatedBy w.store email = [])
    (herr : ∀ e ∈ envs, e.ownersFilterThrows = true ∨ e.createThrows = true) :
    loads envs w = w := by
  induction envs with
  | nil => rfl
  | cons env tl ih =>
    have hl := fetchProfile_no_profile env w
      (Or.inr ⟨{ email := email }, hme env (List.mem_cons_self _ _), hnone,
        herr env (List.mem_cons_self _ _)⟩)
    simp only [loads]
    rw [hl]
    exact ih (fun e he => hme e (List.mem_cons_of_mem _ he))
      (fun e he => herr e (List.mem_cons_of_mem _ he))

/-- While the caller has no profile, a sequence of its loads of which at least
one meets no store error appends exactly one record, which is then the only
profile of the caller and the one the component holds. -/
theorem loads_creates_once (email : String) (envs : List Env) (w : World)
    (hme : ∀ e ∈ envs, e.me = some { email := email })
    (hnone : NexusProfile.filterCreatedBy w.store email = [])
    (hok : ∃ e ∈ envs, e.ownersFilterThrows = false ∧ e.createThrows = false) :
    ∃ p, (loads envs w).store = w.store ++ [p] ∧
      NexusProfile.filterCreatedBy (loads envs w).store email = [p] ∧
      (loads envs w).comp.profile = some p := by
  induction envs with
  | nil =>
    obtain ⟨e, he, _⟩ := hok
    cases he
  | cons env tl ih =>
    have hme0 := hme env (List.mem_cons_self _ _)
    have hmetl : ∀ e ∈ tl, e.me = some { email := email } :=
      fun e he => hme e (List.mem_cons_of_mem _ he)
    by_cases hgood : env.ownersFilterThrows = false ∧ env.createThrows = false
    · obtain ⟨p, _, _, hs, hprof, hby, _⟩ :=
        fetchProfile_creates env w { email := email } hme0 hnone hgood.1 hgood.2
      have hone :
          NexusProfile.filterCreatedBy (fetchProfile env w).world.store email = [p] := by
        have hn : List.filter (fun q : Profile => q.created_by == email) w.store = [] := hnone
        have hb : p.created_by = email := hby
        rw [hs]
        simp [NexusProfile.filterCreatedBy, List.filter_append, hn, hb]
      obtain ⟨ls, lp⟩ := loads_existing email tl (fetchProfile env w).world p [] hmetl hone
      refine ⟨p, by simp only [loads]; rw [ls, hs],
        by simp only [loads]; rw [ls]; exact hone, ?_⟩
      simp only [loads]
      cases tl with
      | nil => exact hprof
      | cons e2 tl2 => exact lp (by simp)
    · have hbad : env.ownersFilterThrows = true ∨ env.createThrows = true := by
        cases h1 : env.ownersFilterThrows <;> cases h2 : env.createThrows <;> simp_all
      have hl := fetchProfile_no_profile env w
        (Or.inr ⟨{ email := email }, hme0, hnone, hbad⟩)
      have htl : ∃ e ∈ tl, e.ownersFilterThrows = false ∧ e.createThrows = false := by
        obtain ⟨e, he, hegood⟩ := hok
        rcases List.mem_cons.mp he with h0 | h0
        · exact absurd (h0 ▸ hegood) hgood
        · exact ⟨e, h0, hegood⟩
      simp only [loads]
      rw [hl]
      exact ih hmetl htl

/-- C7 (amended): for a caller `email`, a store that records the caller as
`created_by`, and one or more loads run in sequence for that caller: if the
caller had a profile, the store is unchanged and the component holds the first
match; if the caller had none and at least one of the loads meets no store
error, exactly one record is appended, it is then the only profile of the
caller and the component holds it; if every load meets a store error, nothing
is created and nothing changes; and once the caller has a profile, any further
load leaves the store and the held profile as they are. -/
theorem one_profile_per_identity (email : String) (w : World) (envs : List Env)
    (hme : ∀ e ∈ envs, e.me = some { email := email }) (hne : envs ≠ []) :
    (∀ p rest, NexusProfile.filterCreatedBy w.store email = p :: rest →
      (loads envs w).store = w.store ∧ (loads envs w).comp.profile = some p) ∧
    (NexusProfile.filterCreatedBy w.store email = [] →
      ((∃ e ∈ envs, e.ownersFilterThrows = false ∧ e.createThrows = false) →
        ∃ p, (loads envs w).store = w.store ++ [p] ∧
          NexusProfile.filterCreatedBy (loads envs w).store email = [p] ∧
          (loads envs w).comp.profile = some p) ∧
      ((∀ e ∈ envs, e.ownersFilterThrows = true ∨ e.createThrows = true) →
        loads envs w = w)) ∧
    (∀ e, e.me = some { email := email } →
      NexusProfile.filterCreatedBy (loads envs w).store email ≠ [] →
      (fetchProfile e (loads envs w)).world.store = (loads envs w).store ∧
      (fetchProfile e (loads envs w)).world.comp.profile = (loads envs w).comp.profile) := by
  have hkeep : ∀ p rest, NexusProfile.filterCreatedBy w.store email = p :: rest →
      (loads envs w).store = w.store ∧ (loads envs w).comp.profile = some p := by
    intro p rest hfound
    obtain ⟨ls, lp⟩ := loads_existing email envs w p rest hme hfound
    exact ⟨ls, lp hne⟩
  refine ⟨hkeep, fun hnone => ⟨loads_creates_once email envs w hme hnone,
    loads_all_fail email envs w hme hnone⟩, ?_⟩
  intro e he hhas
  cases hf : NexusProfile.filterCreatedBy w.store email with
  | cons p rest =>
    obtain ⟨hs, hprof⟩ := hkeep p rest hf
    obtain ⟨fs, fp⟩ := fetchProfile_existing e (loads envs w) { email := email } p rest
      he (by rw [hs]; exact hf)
    exact ⟨fs, fp.trans hprof.symm⟩
  | nil =>
    by_cases hok : ∃ e ∈ envs, e.ownersFilterThrows = false ∧ e.createThrows = false
    · obtain ⟨p, _, hone, hprof⟩ := loads_creates_once email envs w hme hf hok
      obtain ⟨fs, fp⟩ := fetchProfile_existing e (loads envs w) { email := email } p []
        he hone
      exact ⟨fs, fp.trans hprof.symm⟩
    · have herr : ∀ e ∈ envs, e.ownersFilterThrows = true ∨ e.createThrows = true := by
        intro e2 he2
        cases h1 : e2.ownersFilterThrows <;> cases h2 : e2.createThrows <;> simp
        exact hok ⟨e2, he2, h1, h2⟩
      rw [loads_all_fail email envs w hme hf herr] at hhas
      exact absurd hf hhas

/-- Witness of C7 (amended): `ana@nexus.io` navigates three times on a store
that holds only the owner; the first `create` fails, the second load creates
the record and the third changes nothing. -/
theorem one_profile_per_identity_witness :
    NexusProfile.filterCreatedBy (mount [] [ownerNo2FA]).store "ana@nexus.io" = [] ∧
    ∃ p, (loads [Env.createFails "ana@nexus.io", Env.ok "ana@nexus.io", Env.ok "ana@nexus.io"]
          (mount [] [ownerNo2FA])).store = (mount [] [ownerNo2FA]).store ++ [p] ∧
      NexusProfile.filterCreatedBy
        (loads [Env.createFails "ana@nexus.io", Env.ok "ana@nexus.io", Env.ok "ana@nexus.io"]
          (mount [] [ownerNo2FA])).store "ana@nexus.io" = [p] ∧
      (loads [Env.createFails "ana@nexus.io", Env.ok "ana@nexus.io", Env.ok "ana@nexus.io"]
        (mount [] [ownerNo2FA])).comp.profile = some p :=
  ⟨by decide,
   ((one_profile_per_identity "ana@nexus.io" (mount [] [ownerNo2FA])
      [Env.createFails "ana@nexus.io", Env.ok "ana@nexus.io", Env.ok "ana@nexus.io"]
      (by decide) (by decide)).2.1 (by decide)).1
      ⟨Env.ok "ana@nexus.io", by decide, rfl, rfl⟩⟩

/-- C7 (counterexample): `ana@nexus.io` has no profile and its first load meets
a failing `create`: that load creates nothing, and the load after it does
change the store, by creating the record. -/
theorem failed_creation_is_retried :
    NexusProfile.filterCreatedBy (mount [] [ownerNo2FA]).store "ana@nexus.io" = [] ∧
    (fetchProfile (Env.createFails "ana@nexus.io") (mount [] [ownerNo2FA])).rejected = false ∧
    (loads [Env.createFails "ana@nexus.io"] (mount [] [ownerNo2FA])).store = [ownerNo2FA] ∧
    (fetchProfile (Env.ok "ana@nexus.io")
      (loads [Env.createFails "ana@nexus.io"] (mount [] [ownerNo2FA]))).world.store
      ≠ (loads [Env.createFails "ana@nexus.io"] (mount [] [ownerNo2FA])).store ∧
    (fetchProfile (Env.ok "ana@nexus.io")
      (loads [Env.createFails "ana@nexus.io"] (mount [] [ownerNo2FA]))).world.store.length
      = 2 := by
  decide

/-! ### C8: the login check -/

/-- C8 (failing input): `adminWith2FA` opens the application in a fresh
session. When the login check returns, the load resolves and every route shows
the step-up interstitial. When the login check throws, the promise of the load
rejects after `setProfile`, `isSessionVerified` keeps its initial value and the
same profile is shown the application content. -/
theorem login_check_failure_skips_step_up :
    (fetchProfile (Env.ok "ops@nexus.io") (mount [] [adminWith2FA])).rejected = false ∧
    (fetchProfile (Env.ok "ops@nexus.io") (mount [] [adminWith2FA])).world.comp.profile
      = some adminWith2FA ∧
    (Layout (fetchProfile (Env.ok "ops@nexus.io") (mount [] [adminWith2FA])).world.comp
      "/").gate = .AWAIT_STEP_UP ∧
    (fetchProfile (Env.loginCheckFails "ops@nexus.io") (mount [] [adminWith2FA])).rejected
      = true ∧
    (fetchProfile (Env.loginCheckFails "ops@nexus.io")
      (mount [] [adminWith2FA])).world.comp.profile = some adminWith2FA ∧
    (fetchProfile (Env.loginCheckFails "ops@nexus.io")
      (mount [] [adminWith2FA])).world.comp.isSessionVerified = true ∧
    getItem (fetchProfile (Env.loginCheckFails "ops@nexus.io")
      (mount [] [adminWith2FA])).world.sessionStorage "nexus_session_verified" = none ∧
    (Layout (fetchProfile (Env.loginCheckFails "ops@nexus.io")
      (mount [] [adminWith2FA])).world.comp "/").gate = .AUTHORIZED := by
  decide

/-! ### C9: no profile -/

/-- C9 (amended): when the identity provider returns no caller, or the caller
has no profile and the owner query or the creation call fails, the load
resolves and writes nothing, so the component is left as it was: without a
profile if it held none. A component without a profile renders, on every route
and for either value of `isSessionVerified`, the application content with the
eleven base entries (none labelled ADMIN or OWNER), the plan badge FREE and 0
credits. -/
theorem fail_open_without_profile (env : Env) (w : World) (c : Component) (pathname : String)
    (h : env.me = none ∨
      ∃ user, env.me = some user ∧
        NexusProfile.filterCreatedBy w.store user.email = [] ∧
        (env.ownersFilterThrows = true ∨ env.createThrows = true))
    (hc : c.profile = none) :
    (fetchProfile env w).rejected = false ∧
    (fetchProfile env w).world = w ∧
    (w.comp.profile = none → (fetchProfile env w).world.comp.profile = none) ∧
    Layout c pathname = .shell baseNavItems .FREE 0 c.showSecurityPopup ∧
    (Layout c pathname).gate = .AUTHORIZED ∧
    (∀ item ∈ navItems c.profile, item.label ≠ "ADMIN" ∧ item.label ≠ "OWNER") ∧
    planLabel c.profile = .FREE ∧ creditsShown c.profile = 0 := by
  have hl := fetchProfile_no_profile env w h
  have hview : Layout c pathname = .shell baseNavItems .FREE 0 c.showSecurityPopup := by
    simp [Layout, mustSetup2FA, twoFaEnabled, navItems, planLabel, creditsShown, hc]
  refine ⟨by rw [hl], by rw [hl], fun hw => by rw [hl]; exact hw, hview,
    by rw [hview]; rfl, ?_, by simp [planLabel, hc], by simp [creditsShown, hc]⟩
  have hnav : navItems c.profile = baseNavItems := by simp [navItems, hc]
  rw [hnav]
  decide

/-- Witness of C9 (amended): a fresh mount whose identity call returns no
caller. -/
theorem fail_open_without_profile_witness :
    (fetchProfile Env.anonymous (mount [] [])).rejected = false ∧
    (fetchProfile Env.anonymous (mount [] [])).world = mount [] [] ∧
    (fetchProfile Env.anonymous (mount [] [])).world.comp.profile = none ∧
    Layout Component.initial "/Admin" = .shell baseNavItems .FREE 0 false :=
  let h := fail_open_without_profile Env.anonymous (mount [] []) Component.initial "/Admin"
    (Or.inl rfl) rfl
  ⟨h.1, h.2.1, h.2.2.1 rfl, h.2.2.2.1⟩

/-- C9 (counterexample): a component that holds `adminWith2FA` from an earlier
load runs a load in which the identity provider returns no caller. The load
resolves, the admin profile is still held, and `/` renders the shell with the
ADMIN entry. -/
theorem null_caller_keeps_held_profile :
    Env.anonymous.me = none ∧
    (fetchProfile Env.anonymous holdingAdmin).rejected = false ∧
    (fetchProfile Env.anonymous holdingAdmin).world.comp.profile = some adminWith2FA ∧
    (fetchProfile Env.anonymous holdingAdmin).world.comp.profile ≠ none ∧
    (Layout (fetchProfile Env.anonymous holdingAdmin).world.comp "/").gate = .AUTHORIZED ∧
    ({ label := "ADMIN", path := "/Admin" } : NavItem) ∈
      navItems (fetchProfile Env.anonymous holdingAdmin).world.comp.profile := by
  decide

/-! ### C10: the reminder -/

/-- When lines 133-136 keep, and when they raise, the reminder flag. -/
theorem checks_popup (cp : Option Profile) (w : World) :
    (truthy (getItem w.sessionStorage "security_popup_dismissed") = true →
      (fetchProfile.checks cp w).comp.showSecurityPopup = w.comp.showSecurityPopup) ∧
    (∀ p, cp = some p → p.two_fa_enabled = false →
      truthy (getItem w.sessionStorage "security_popup_dismissed") = false →
      (fetchProfile.checks cp w).comp.showSecurityPopup = true) := by
  unfold fetchProfile.checks
  cases cp with
  | none => simp [twoFaEnabled]
  | some q =>
    cases h2 : q.two_fa_enabled <;>
      cases hd : truthy (getItem w.sessionStorage "security_popup_dismissed") <;>
      cases hv : truthy (getItem w.sessionStorage "nexus_session_verified") <;>
      simp [twoFaEnabled, h2, hd, hv]

/-- A load keeps the session storage, and keeps the reminder flag when the
dismissal flag is set. -/
theorem fetchProfile_popup_dismissed (env : Env) (w : World)
    (hflag : truthy (getItem w.sessionStorage "security_popup_dismissed") = true) :
    (fetchProfile env w).world.sessionStorage = w.sessionStorage ∧
    (fetchProfile env w).world.comp.showSecurityPopup = w.comp.showSecurityPopup := by
  obtain ⟨hss, _, hpop, _, _⟩ := resolve_frame env w
  obtain ⟨css, _, _, _, _⟩ :=
    checks_frame (fetchProfile.resolve env w).currentProfile (fetchProfile.resolve env w).world
  have hkeep := (checks_popup (fetchProfile.resolve env w).currentProfile
    (fetchProfile.resolve env w).world).1 (by rw [hss]; exact hflag)
  cases hst : (fetchProfile.resolve env w).status with
  | rejected => simp only [fetchProfile, hst]; exact ⟨hss, hpop⟩
  | returned => simp only [fetchProfile, hst]; exact ⟨hss, hpop⟩
  | fallsThrough => simp only [fetchProfile, hst]; exact ⟨css.trans hss, hkeep.trans hpop⟩

/-- Once the reminder is hidden and the dismissal flag is set, any sequence of
later loads, whatever they resolve and however they end, keeps the reminder
hidden and the session storage as it is, so no route renders it. -/
theorem loads_keep_reminder_hidden (w : World) (envs : List Env) (pathname : String)
    (hhid : w.comp.showSecurityPopup = false)
    (hflag : truthy (getItem w.sessionStorage "security_popup_dismissed") = true) :
    (loads envs w).comp.showSecurityPopup = false ∧
    (loads envs w).sessionStorage = w.sessionStorage ∧
    ∀ nav plan credits popup,
      Layout (loads envs w).comp pathname = .shell nav plan credits popup → popup = false := by
  have hloads : ∀ (es : List Env) (v : World), v.comp.showSecurityPopup = false →
      truthy (getItem v.sessionStorage "security_popup_dismissed") = true →
      (loads es v).comp.showSecurityPopup = false ∧
      (loads es v).sessionStorage = v.sessionStorage := by
    intro es
    induction es with
    | nil => intro v hv _; exact ⟨hv, rfl⟩
    | cons e tl ih =>
      intro v hv hf
      obtain ⟨hss, hpop⟩ := fetchProfile_popup_dismissed e v hf
      obtain ⟨ih1, ih2⟩ := ih (fetchProfile e v).world (hpop.trans hv) (by rw [hss]; exact hf)
      exact ⟨ih1, ih2.trans hss⟩
  obtain ⟨hp, hs⟩ := hloads envs w hhid hflag
  refine ⟨hp, hs, ?_⟩
  intro nav plan credits popup hview
  unfold Layout at hview
  split at hview
  · cases hview
  · split at hview
    · cases hview
    · cases hview
      exact hp

/-- With the dismissal flag unset, a load that resolves a profile with 2FA
disabled and reaches line 134 sets the reminder to shown. -/
theorem reminder_shown_at_end_of_load (env : Env) (fresh : World) (p : Profile)
    (hunset : getItem fresh.sessionStorage "security_popup_dismissed" = none)
    (hres : (fetchProfile.resolve env fresh).currentProfile = some p)
    (hend : (fetchProfile.resolve env fresh).status = .fallsThrough)
    (h2 : p.two_fa_enabled = false) :
    (fetchProfile env fresh).world.comp.showSecurityPopup = true := by
  obtain ⟨hss, _, _, _, _⟩ := resolve_frame env fresh
  have hshow := (checks_popup (fetchProfile.resolve env fresh).currentProfile
    (fetchProfile.resolve env fresh).world).2 p hres h2 (by rw [hss, hunset]; rfl)
  simp only [fetchProfile, hend]
  exact hshow

/-- C10 (failing input): `userNo2FA` opens the application in a fresh session
whose dismissal flag is unset. When the login check returns, the load shows the
reminder; dismissing it keeps it hidden over two further loads. When the login
check throws, the load resolves the same profile, its promise rejects before
line 134 and the reminder stays hidden. -/
theorem reminder_skipped_when_login_check_throws :
    getItem (mount [] [userNo2FA]).sessionStorage "security_popup_dismissed" = none ∧
    (fetchProfile (Env.ok "ana@nexus.io") (mount [] [userNo2FA])).world.comp.showSecurityPopup
      = true ∧
    (loads [Env.ok "ana@nexus.io", Env.ok "ana@nexus.io"]
      (dismissSecurityPopup
        (fetchProfile (Env.ok "ana@nexus.io") (mount [] [userNo2FA])).world)).comp.showSecurityPopup
      = false ∧
    (fetchProfile (Env.loginCheckFails "ana@nexus.io") (mount [] [userNo2FA])).rejected
      = true ∧
    (fetchProfile (Env.loginCheckFails "ana@nexus.io")
      (mount [] [userNo2FA])).world.comp.profile = some userNo2FA ∧
    userNo2FA.two_fa_enabled = false ∧
    (fetchProfile (Env.loginCheckFails "ana@nexus.io")
      (mount [] [userNo2FA])).world.comp.showSecurityPopup = false := by
  decide

end NexusAI
